import Mathlib

/-!
Shallow embedding of `src/main.rs` of the `asteroids-bevy` repository
(a minimal asteroids game written with the Bevy engine), together with
theorems checking the natural-language specification against it.

Modelling conventions:
* `f32` values are modelled as exact rationals (`ℚ`); float rounding is out
  of scope.
* The source compares `d < r` where `d = sqrt(q)` and `r = ASTEROID_RADIUS`.
  Since `r > 0`, this is equivalent to `q < r * r`, which is how the
  comparison is encoded here (keeping everything computable over `ℚ`).
* `Vec3::normalize` divides by the Euclidean norm `sqrt(x²+y²+z²)`, which is
  irrational in general.  The norm is therefore passed in as an oracle
  `norms : Vec3 → ℚ`; every theorem that depends on its value carries the
  hypothesis `norms v * norms v = v.normSq` (and `0 < norms v`), i.e. the
  oracle is a skolemized square root.
* Randomness (`rand::thread_rng` / `gen_range`) is injected: the uniform
  samples drawn in `random_position_in_corner` and `random_asteroid_speed`
  become explicit arguments in `[0,1)`.
* `Quat::from_rotation_z(a)` is modelled by the angle `a` itself, and
  `f32::atan2` is kept uninterpreted: it enters as a function argument
  `atan2f : ℚ → ℚ → ℚ` applied to the same arguments as in the source.
* Bevy scheduling: the five gameplay systems are registered with
  `.run_if(in_state(AppState::InGame))`, and `NextState` writes are applied
  by Bevy's `StateTransition` schedule which runs before `Update` on the
  next frame.  A frame is therefore modelled as: apply any pending state
  transition, then, if the phase is `InGame`, run the systems (in the order
  they are listed in the source; no claim below depends on intra-frame
  system order).  Commands (spawn/despawn) being deferred to the end of a
  system does not change any per-system input/output relation modelled here.
* `Score.value : u32` is modelled as `ℕ` (overflow after 2³² destroyed
  asteroids is out of scope).
-/

/-- Arena constants from `src/main.rs`. -/
def WINDOW_WIDTH : ℚ := 800

def WINDOW_HEIGHT : ℚ := 600

def WINDOW_MARGIN : ℚ := 50

def ASTEROID_RADIUS : ℚ := 50

def ASTEROID_SPAWN_RATE : ℚ := 1

def ASTEROID_MIN_SPEED : ℚ := 50

def ASTEROID_MAX_SPEED : ℚ := 100

/-- `bevy::math::Vec3` with exact coordinates. -/
structure Vec3 where
  x : ℚ
  y : ℚ
  z : ℚ
deriving DecidableEq, Repr

namespace Vec3

def add (v w : Vec3) : Vec3 := ⟨v.x + w.x, v.y + w.y, v.z + w.z⟩

/-- Scalar multiplication `v * k` (glam's `Vec3 * f32`). -/
def smul (v : Vec3) (k : ℚ) : Vec3 := ⟨v.x * k, v.y * k, v.z * k⟩

/-- Squared Euclidean norm, the radicand of `Vec3::length`. -/
def normSq (v : Vec3) : ℚ := v.x * v.x + v.y * v.y + v.z * v.z

/-- `Vec3::normalize` = `v / v.length()`, with the length supplied by the
square-root oracle `norms` (see module docstring). -/
def normalizeWith (norms : Vec3 → ℚ) (v : Vec3) : Vec3 :=
  v.smul (1 / norms v)

def zero : Vec3 := ⟨0, 0, 0⟩

end Vec3

/-- A cursor position in screen coordinates (`bevy::math::Vec2`). -/
structure Vec2 where
  x : ℚ
  y : ℚ
deriving DecidableEq, Repr

/-- `AppState` from the source: `InGame` (default) and `GameOver`. -/
inductive AppState where
  | InGame
  | GameOver
deriving DecidableEq, Repr

/-- Bevy `Timer` in `TimerMode::Once`: `tick` accumulates elapsed time,
clamped at `duration`; `finished` iff `elapsed ≥ duration`; `reset` puts
`elapsed` back to `0`. -/
structure TimerM where
  elapsed : ℚ
  duration : ℚ
deriving DecidableEq, Repr

namespace TimerM

/-- `Timer::tick(delta)` for a once-mode timer.  In the source the delta is a
`Duration` (hence non-negative: `Duration::from_secs_f32` panics on negative
input); theorems about the spawn system assume `0 ≤ dt`. -/
def tick (t : TimerM) (dt : ℚ) : TimerM :=
  { t with elapsed := min (t.elapsed + dt) t.duration }

/-- `Timer::finished()`. -/
def finished (t : TimerM) : Bool := t.duration ≤ t.elapsed

/-- `Timer::reset()`. -/
def reset (t : TimerM) : TimerM := { t with elapsed := 0 }

end TimerM

/-- The `SpawnTimer` resource default: `Timer::from_seconds(ASTEROID_SPAWN_RATE,
TimerMode::Once)`. -/
def SpawnTimer.default : TimerM := ⟨0, ASTEROID_SPAWN_RATE⟩

/-- An asteroid entity: its `Transform` translation and its `Velocity { speed }`
component.  (The asteroid's rotation is never read or written.) -/
structure AsteroidE where
  translation : Vec3
  speed : ℚ
deriving DecidableEq, Repr

/-- The player entity: `Transform` translation and the rotation angle passed
to `Quat::from_rotation_z`. -/
structure PlayerE where
  translation : Vec3
  rotation : ℚ
deriving DecidableEq, Repr

/-- The player spawned by `setup`: `Transform::from_xyz(0.0, 0.0, 0.0)` with
identity rotation. -/
def setupPlayer : PlayerE := ⟨Vec3.zero, 0⟩

/-- Per-frame external input: the primary window's `cursor_position()` (if the
cursor is inside the window) and whether `MouseButton::Left` was just
pressed this frame. -/
structure Input where
  cursor : Option Vec2
  fireJustPressed : Bool
deriving DecidableEq, Repr

/-- The whole simulation state: the `AppState` machine (current state plus the
pending `NextState` write), the `Score` and `SpawnTimer` resources, the
player, the live asteroids, and the log of `println!` score reports emitted
by `player_collision`. -/
structure GameState where
  phase : AppState
  nextState : Option AppState
  score : ℕ
  timer : TimerM
  player : PlayerE
  asteroids : List AsteroidE
  reports : List ℕ
deriving DecidableEq, Repr

/-- `random_position_in_corner`, with the two `gen_range(0.0..1.0)` draws `x`
and `y` injected as arguments. -/
def random_position_in_corner (x y : ℚ) : Vec3 :=
  let map_x := (if x < 1/2 then
      x * 2 * WINDOW_MARGIN
    else
      (x - 1/2) * 2 * WINDOW_MARGIN + WINDOW_WIDTH - WINDOW_MARGIN)
    - WINDOW_WIDTH / 2
  let map_y := (if y < 1/2 then
      y * 2 * WINDOW_MARGIN
    else
      (y - 1/2) * 2 * WINDOW_MARGIN + WINDOW_HEIGHT - WINDOW_MARGIN)
    - WINDOW_HEIGHT / 2
  ⟨map_x, map_y, 0⟩

/-- `random_asteroid_speed`: `gen_range(min..max)` modelled as
`min + u * (max - min)` for an injected uniform sample `u ∈ [0,1)`. -/
def random_asteroid_speed (u : ℚ) : ℚ :=
  ASTEROID_MIN_SPEED + u * (ASTEROID_MAX_SPEED - ASTEROID_MIN_SPEED)

/-- `player_rotation`: if the cursor position is available, convert it to world
coordinates and set the player's rotation to
`Quat::from_rotation_z(x.atan2(-y))`; otherwise do nothing. -/
def player_rotation (atan2f : ℚ → ℚ → ℚ) (inp : Input) (s : GameState) :
    GameState :=
  match inp.cursor with
  | none => s
  | some position =>
    let x := position.x - WINDOW_WIDTH / 2
    let y := WINDOW_HEIGHT / 2 - position.y
    { s with player := { s.player with rotation := atan2f x (-y) } }

/-- `asteroid_spawn`: tick the spawn timer by the frame's delta; if it
finished, spawn one asteroid at `random_position_in_corner()` with speed
`random_asteroid_speed()` and reset the timer.  The random draws `rx ry ru`
are injected. -/
def asteroid_spawn (dt rx ry ru : ℚ) (s : GameState) : GameState :=
  let t := s.timer.tick dt
  if t.finished then
    { s with
      asteroids := s.asteroids ++
        [⟨random_position_in_corner rx ry, random_asteroid_speed ru⟩],
      timer := t.reset }
  else
    { s with timer := t }

/-- The loop body of `asteroid_movement`: one integration step for one
asteroid, `translation += -1.0 * translation.normalize() * speed * dt`. -/
def moveAsteroid (norms : Vec3 → ℚ) (dt : ℚ) (a : AsteroidE) : AsteroidE :=
  let direction := (a.translation.normalizeWith norms).smul (-1)
  let translation := (direction.smul a.speed).smul dt
  { a with translation := a.translation.add translation }

/-- `asteroid_movement`: every asteroid moves along
`-1.0 * translation.normalize()` scaled by its speed and the frame delta. -/
def asteroid_movement (norms : Vec3 → ℚ) (dt : ℚ) (s : GameState) :
    GameState :=
  { s with asteroids := s.asteroids.map (moveAsteroid norms dt) }

/-- The hit test in `player_shooting`: `sqrt(dx²+dy²) < ASTEROID_RADIUS`,
encoded on the squares. -/
def hitBy (x y : ℚ) (a : AsteroidE) : Bool :=
  let dx := a.translation.x - x
  let dy := a.translation.y - y
  dx * dx + dy * dy < ASTEROID_RADIUS * ASTEROID_RADIUS

/-- `player_shooting`: on a left-button press edge with the cursor available,
despawn every asteroid within `ASTEROID_RADIUS` of the world cursor
position and add one to the score for each. -/
def player_shooting (inp : Input) (s : GameState) : GameState :=
  if !inp.fireJustPressed then
    s
  else
    match inp.cursor with
    | none => s
    | some position =>
      let x := position.x - WINDOW_WIDTH / 2
      let y := WINDOW_HEIGHT / 2 - position.y
      { s with
        score := s.score + (s.asteroids.filter (hitBy x y)).length,
        asteroids := s.asteroids.filter (fun a => !hitBy x y a) }

/-- The loss test in `player_collision`: `sqrt(x²+y²) < ASTEROID_RADIUS` for
an asteroid's translation, encoded on the squares. -/
def belowHazard (a : AsteroidE) : Bool :=
  let x := a.translation.x
  let y := a.translation.y
  x * x + y * y < ASTEROID_RADIUS * ASTEROID_RADIUS

/-- The loop body of `player_collision`: if this asteroid is below the hazard
radius, set `NextState` to `GameOver` and `println!` the current score. -/
def collideF (acc : GameState) (a : AsteroidE) : GameState :=
  if belowHazard a then
    { acc with
      nextState := some AppState.GameOver,
      reports := acc.reports ++ [acc.score] }
  else acc

/-- `player_collision`: for every asteroid closer to the origin than
`ASTEROID_RADIUS`, set `NextState` to `GameOver` and `println!` the score
(one report per such asteroid, as in the source loop). -/
def player_collision (s : GameState) : GameState :=
  s.asteroids.foldl collideF s

/-- Bevy's `StateTransition` schedule: apply a pending `NextState` write,
clearing it. -/
def applyNextState (s : GameState) : GameState :=
  match s.nextState with
  | none => s
  | some p => { s with phase := p, nextState := none }

/-- One frame of the `Update` schedule as configured in `main`: first apply
any pending state transition, then run the five gameplay systems only when
the state is `InGame` (they are registered with
`.run_if(in_state(AppState::InGame))`). -/
def frame (atan2f : ℚ → ℚ → ℚ) (norms : Vec3 → ℚ) (dt rx ry ru : ℚ)
    (inp : Input) (s : GameState) : GameState :=
  let s := applyNextState s
  if s.phase = AppState.InGame then
    player_collision
      (player_shooting inp
        (asteroid_movement norms dt
          (asteroid_spawn dt rx ry ru
            (player_rotation atan2f inp s))))
  else
    s

/-- Iterated frames (a whole session tail), with per-frame parameters supplied
by functions of the frame index. -/
def frames (atan2f : ℚ → ℚ → ℚ) (norms : Vec3 → ℚ) (dts rxs rys rus : ℕ → ℚ)
    (inps : ℕ → Input) (s : GameState) : ℕ → GameState
  | 0 => s
  | n + 1 =>
    frame atan2f norms (dts n) (rxs n) (rys n) (rus n) (inps n)
      (frames atan2f norms dts rxs rys rus inps s n)

/-! ### Helper lemmas about the individual systems -/

lemma player_rotation_fields (atan2f : ℚ → ℚ → ℚ) (inp : Input)
    (s : GameState) :
    (player_rotation atan2f inp s).score = s.score
    ∧ (player_rotation atan2f inp s).phase = s.phase
    ∧ (player_rotation atan2f inp s).nextState = s.nextState
    ∧ (player_rotation atan2f inp s).asteroids = s.asteroids
    ∧ (player_rotation atan2f inp s).timer = s.timer
    ∧ (player_rotation atan2f inp s).reports = s.reports
    ∧ (player_rotation atan2f inp s).player.translation
        = s.player.translation := by
  cases h : inp.cursor <;> simp [player_rotation, h]

lemma asteroid_spawn_fields (dt rx ry ru : ℚ) (s : GameState) :
    (asteroid_spawn dt rx ry ru s).score = s.score
    ∧ (asteroid_spawn dt rx ry ru s).phase = s.phase
    ∧ (asteroid_spawn dt rx ry ru s).nextState = s.nextState
    ∧ (asteroid_spawn dt rx ry ru s).player = s.player
    ∧ (asteroid_spawn dt rx ry ru s).reports = s.reports := by
  by_cases h : ((s.timer.tick dt).finished : Bool) = true <;>
    simp [asteroid_spawn, h]

lemma asteroid_movement_fields (norms : Vec3 → ℚ) (dt : ℚ) (s : GameState) :
    (asteroid_movement norms dt s).score = s.score
    ∧ (asteroid_movement norms dt s).phase = s.phase
    ∧ (asteroid_movement norms dt s).nextState = s.nextState
    ∧ (asteroid_movement norms dt s).player = s.player
    ∧ (asteroid_movement norms dt s).timer = s.timer
    ∧ (asteroid_movement norms dt s).reports = s.reports := by
  simp [asteroid_movement]

lemma player_shooting_fields (inp : Input) (s : GameState) :
    (player_shooting inp s).phase = s.phase
    ∧ (player_shooting inp s).nextState = s.nextState
    ∧ (player_shooting inp s).player = s.player
    ∧ (player_shooting inp s).timer = s.timer
    ∧ (player_shooting inp s).reports = s.reports := by
  cases hf : inp.fireJustPressed
  · simp [player_shooting, hf]
  · cases hc : inp.cursor <;> simp [player_shooting, hf, hc]

lemma player_shooting_score_ge (inp : Input) (s : GameState) :
    s.score ≤ (player_shooting inp s).score := by
  cases hf : inp.fireJustPressed
  · simp [player_shooting, hf]
  · cases hc : inp.cursor
    · simp [player_shooting, hf, hc]
    · simp [player_shooting, hf, hc]

lemma collide_foldl_const (l : List AsteroidE) (acc : GameState) :
    (l.foldl collideF acc).score = acc.score
    ∧ (l.foldl collideF acc).phase = acc.phase
    ∧ (l.foldl collideF acc).asteroids = acc.asteroids
    ∧ (l.foldl collideF acc).timer = acc.timer
    ∧ (l.foldl collideF acc).player = acc.player := by
  induction l generalizing acc with
  | nil => simp
  | cons a l ih =>
    have hc : (collideF acc a).score = acc.score
        ∧ (collideF acc a).phase = acc.phase
        ∧ (collideF acc a).asteroids = acc.asteroids
        ∧ (collideF acc a).timer = acc.timer
        ∧ (collideF acc a).player = acc.player := by
      by_cases h : (belowHazard a : Bool) = true <;> simp [collideF, h]
    obtain ⟨h1, h2, h3, h4, h5⟩ := ih (collideF acc a)
    simp only [List.foldl_cons]
    exact ⟨h1.trans hc.1, h2.trans hc.2.1, h3.trans hc.2.2.1,
      h4.trans hc.2.2.2.1, h5.trans hc.2.2.2.2⟩

lemma collide_foldl_reports (l : List AsteroidE) (acc : GameState) :
    (l.foldl collideF acc).reports
      = acc.reports ++ (l.filter belowHazard).map (fun _ => acc.score) := by
  induction l generalizing acc with
  | nil => simp
  | cons a l ih =>
    by_cases h : (belowHazard a : Bool) = true
    · have hs : (collideF acc a).score = acc.score := by simp [collideF, h]
      have hr : (collideF acc a).reports = acc.reports ++ [acc.score] := by
        simp [collideF, h]
      simp only [List.foldl_cons, List.filter_cons, h, if_pos, List.map_cons]
      rw [ih, hs, hr]
      simp
    · have hacc : collideF acc a = acc := by simp [collideF, h]
      simp only [List.foldl_cons, List.filter_cons, h, if_neg, hacc,
        Bool.false_eq_true]
      exact ih acc

lemma collide_foldl_nextState (l : List AsteroidE) (acc : GameState) :
    (l.foldl collideF acc).nextState
      = if (l.filter belowHazard).isEmpty then acc.nextState
        else some AppState.GameOver := by
  induction l generalizing acc with
  | nil => simp
  | cons a l ih =>
    by_cases h : (belowHazard a : Bool) = true
    · have hn : (collideF acc a).nextState = some AppState.GameOver := by
        simp [collideF, h]
      simp only [List.foldl_cons, List.filter_cons, h, if_pos,
        List.isEmpty_cons, Bool.false_eq_true, if_neg]
      rw [ih]
      by_cases h2 : (l.filter belowHazard).isEmpty = true <;> simp [h2, hn]
    · have hacc : collideF acc a = acc := by simp [collideF, h]
      simp only [List.foldl_cons, List.filter_cons, h, if_neg, hacc,
        Bool.false_eq_true]
      exact ih acc

lemma player_collision_fields (s : GameState) :
    (player_collision s).score = s.score
    ∧ (player_collision s).phase = s.phase
    ∧ (player_collision s).asteroids = s.asteroids
    ∧ (player_collision s).timer = s.timer
    ∧ (player_collision s).player = s.player :=
  collide_foldl_const s.asteroids s

lemma applyNextState_fields (s : GameState) :
    (applyNextState s).score = s.score
    ∧ (applyNextState s).asteroids = s.asteroids
    ∧ (applyNextState s).timer = s.timer
    ∧ (applyNextState s).player = s.player
    ∧ (applyNextState s).reports = s.reports := by
  cases h : s.nextState <;> simp [applyNextState, h]

/-! ### Frame-level helper lemmas -/

lemma frame_frozen (atan2f : ℚ → ℚ → ℚ) (norms : Vec3 → ℚ) (dt rx ry ru : ℚ)
    (inp : Input) (s : GameState) (hphase : s.phase = AppState.GameOver)
    (hnext : s.nextState = none) :
    frame atan2f norms dt rx ry ru inp s = s := by
  simp [frame, applyNextState, hnext, hphase]

lemma frame_score_mono (atan2f : ℚ → ℚ → ℚ) (norms : Vec3 → ℚ)
    (dt rx ry ru : ℚ) (inp : Input) (s : GameState) :
    s.score ≤ (frame atan2f norms dt rx ry ru inp s).score := by
  unfold frame
  have h0 : (applyNextState s).score = s.score := (applyNextState_fields s).1
  by_cases hp : (applyNextState s).phase = AppState.InGame
  · simp only [hp, if_pos]
    set s1 := player_rotation atan2f inp (applyNextState s) with hs1
    set s2 := asteroid_spawn dt rx ry ru s1 with hs2
    set s3 := asteroid_movement norms dt s2 with hs3
    set s4 := player_shooting inp s3 with hs4
    have e1 : s1.score = s.score := by
      rw [hs1, (player_rotation_fields atan2f inp _).1, h0]
    have e2 : s2.score = s.score := by
      rw [hs2, (asteroid_spawn_fields dt rx ry ru _).1, e1]
    have e3 : s3.score = s.score := by
      rw [hs3, (asteroid_movement_fields norms dt _).1, e2]
    have e4 : s.score ≤ s4.score := by
      rw [hs4, ← e3]; exact player_shooting_score_ge inp s3
    calc s.score ≤ s4.score := e4
      _ = (player_collision s4).score := ((player_collision_fields s4).1).symm
  · rw [if_neg hp]
    exact le_of_eq h0.symm

lemma frame_player_translation (atan2f : ℚ → ℚ → ℚ) (norms : Vec3 → ℚ)
    (dt rx ry ru : ℚ) (inp : Input) (s : GameState) :
    (frame atan2f norms dt rx ry ru inp s).player.translation
      = s.player.translation := by
  unfold frame
  have h0 : (applyNextState s).player = s.player :=
    (applyNextState_fields s).2.2.2.1
  by_cases hp : (applyNextState s).phase = AppState.InGame
  · simp only [hp, if_pos]
    set s1 := player_rotation atan2f inp (applyNextState s) with hs1
    set s2 := asteroid_spawn dt rx ry ru s1 with hs2
    set s3 := asteroid_movement norms dt s2 with hs3
    set s4 := player_shooting inp s3 with hs4
    have e1 : s1.player.translation = s.player.translation := by
      rw [hs1]
      rw [(player_rotation_fields atan2f inp _).2.2.2.2.2.2, h0]
    have e2 : s2.player = s1.player := (asteroid_spawn_fields dt rx ry ru _).2.2.2.1
    have e3 : s3.player = s2.player := (asteroid_movement_fields norms dt _).2.2.2.1
    have e4 : s4.player = s3.player := (player_shooting_fields inp _).2.2.1
    rw [(player_collision_fields s4).2.2.2.2, e4, e3, e2, e1]
  · rw [if_neg hp, h0]

/-! ### Claim theorems -/

/-- C2: once the phase is `GameOver` (its `NextState` write applied — which is
how `GameOver` is entered), every subsequent frame leaves the whole state
unchanged whatever the elapsed times and inputs: no update system runs, no
asteroid is spawned or moved, the score is frozen, and the phase never
returns to `InGame`. -/
theorem C2_gameOver_frozen (atan2f : ℚ → ℚ → ℚ) (norms : Vec3 → ℚ)
    (dts rxs rys rus : ℕ → ℚ) (inps : ℕ → Input) (s : GameState)
    (hphase : s.phase = AppState.GameOver) (hnext : s.nextState = none) :
    ∀ n : ℕ, frames atan2f norms dts rxs rys rus inps s n = s := by
  intro n
  induction n with
  | zero => rfl
  | succ n ih =>
    simp only [frames, ih]
    exact frame_frozen _ _ _ _ _ _ _ _ hphase hnext

theorem C2_gameOver_frozen_witness :
    frames (fun _ _ => 0) (fun _ => 1) (fun _ => 1) (fun _ => 0) (fun _ => 0)
      (fun _ => 0) (fun _ => ⟨some ⟨1, 2⟩, true⟩)
      ⟨AppState.GameOver, none, 7, ⟨0, 1⟩, setupPlayer,
        [⟨⟨10, 0, 0⟩, 60⟩], []⟩ 3
      = ⟨AppState.GameOver, none, 7, ⟨0, 1⟩, setupPlayer,
        [⟨⟨10, 0, 0⟩, 60⟩], []⟩ :=
  C2_gameOver_frozen (fun _ _ => 0) (fun _ => 1) (fun _ => 1) (fun _ => 0)
    (fun _ => 0) (fun _ => 0) (fun _ => ⟨some ⟨1, 2⟩, true⟩)
    ⟨AppState.GameOver, none, 7, ⟨0, 1⟩, setupPlayer,
      [⟨⟨10, 0, 0⟩, 60⟩], []⟩ rfl rfl 3

/-- C3: on a fire-input edge with the cursor available, exactly the live
asteroids within the hazard radius of the world cursor position are
destroyed (encoded on squared distances) and the score grows by their
count; an asteroid exactly at the cursor's world position is always
destroyed; an asteroid at squared distance ≥ radius² always survives; with
the cursor unavailable the system changes nothing. -/
theorem C3_player_shooting_hit_test (inp : Input) (s : GameState) :
    (∀ p : Vec2, inp.fireJustPressed = true → inp.cursor = some p →
      ((player_shooting inp s).asteroids
          = s.asteroids.filter (fun a =>
              !hitBy (p.x - WINDOW_WIDTH / 2) (WINDOW_HEIGHT / 2 - p.y) a)
        ∧ (player_shooting inp s).score
            = s.score + (s.asteroids.filter
                (hitBy (p.x - WINDOW_WIDTH / 2)
                  (WINDOW_HEIGHT / 2 - p.y))).length
        ∧ (∀ a ∈ s.asteroids,
            a.translation.x = p.x - WINDOW_WIDTH / 2 →
            a.translation.y = WINDOW_HEIGHT / 2 - p.y →
            a ∉ (player_shooting inp s).asteroids)
        ∧ (∀ a ∈ s.asteroids,
            ASTEROID_RADIUS * ASTEROID_RADIUS ≤
              (a.translation.x - (p.x - WINDOW_WIDTH / 2))
                * (a.translation.x - (p.x - WINDOW_WIDTH / 2))
              + (a.translation.y - (WINDOW_HEIGHT / 2 - p.y))
                * (a.translation.y - (WINDOW_HEIGHT / 2 - p.y)) →
            a ∈ (player_shooting inp s).asteroids)))
    ∧ (inp.cursor = none → player_shooting inp s = s) := by
  constructor
  · intro p hf hc
    have key : player_shooting inp s
        = { s with
            score := s.score + (s.asteroids.filter
              (hitBy (p.x - WINDOW_WIDTH / 2)
                (WINDOW_HEIGHT / 2 - p.y))).length,
            asteroids := s.asteroids.filter (fun a =>
              !hitBy (p.x - WINDOW_WIDTH / 2) (WINDOW_HEIGHT / 2 - p.y) a) } := by
      simp [player_shooting, hf, hc]
    refine ⟨by rw [key], by rw [key], ?_, ?_⟩
    · intro a ha hax hay
      have hhit : hitBy (p.x - WINDOW_WIDTH / 2) (WINDOW_HEIGHT / 2 - p.y) a
          = true := by
        simp [hitBy, hax, hay, ASTEROID_RADIUS]
      rw [key]
      intro hmem
      have := (List.mem_filter.mp hmem).2
      rw [hhit] at this
      simp at this
    · intro a ha hfar
      have hhit : hitBy (p.x - WINDOW_WIDTH / 2) (WINDOW_HEIGHT / 2 - p.y) a
          = false := by
        simp only [hitBy, decide_eq_false_iff_not]
        exact not_lt.mpr hfar
      rw [key]
      exact List.mem_filter.mpr ⟨ha, by simp [hhit]⟩
  · intro hc
    cases hf : inp.fireJustPressed <;> simp [player_shooting, hf, hc]

theorem C3_player_shooting_hit_test_witness :
    (player_shooting ⟨some ⟨400, 300⟩, true⟩
        ⟨AppState.InGame, none, 5, ⟨0, 1⟩, setupPlayer,
          [⟨⟨0, 0, 0⟩, 60⟩, ⟨⟨100, 0, 0⟩, 60⟩], []⟩).asteroids
      = [⟨⟨100, 0, 0⟩, 60⟩]
    ∧ (player_shooting ⟨some ⟨400, 300⟩, true⟩
        ⟨AppState.InGame, none, 5, ⟨0, 1⟩, setupPlayer,
          [⟨⟨0, 0, 0⟩, 60⟩, ⟨⟨100, 0, 0⟩, 60⟩], []⟩).score = 6 := by
  obtain ⟨h1, h2, -, -⟩ :=
    (C3_player_shooting_hit_test ⟨some ⟨400, 300⟩, true⟩
      ⟨AppState.InGame, none, 5, ⟨0, 1⟩, setupPlayer,
        [⟨⟨0, 0, 0⟩, 60⟩, ⟨⟨100, 0, 0⟩, 60⟩], []⟩).1 ⟨400, 300⟩ rfl rfl
  constructor
  · rw [h1]
    norm_num [List.filter, hitBy, WINDOW_WIDTH, WINDOW_HEIGHT, ASTEROID_RADIUS]
  · rw [h2]
    norm_num [List.filter, hitBy, WINDOW_WIDTH, WINDOW_HEIGHT, ASTEROID_RADIUS]

/-- C4: whenever the spawn countdown reaches zero or below during a tick
(`duration − (elapsed + dt) ≤ 0`), exactly one asteroid is spawned and the
timer's elapsed time is reset to `0`, so a full period remains with no
overshoot carried over; and a single tick never spawns more than one
asteroid, however many periods `dt` covers. -/
theorem C4_asteroid_spawn_once (dt rx ry ru : ℚ) (s : GameState)
    (hdt : 0 ≤ dt) :
    (s.timer.duration - (s.timer.elapsed + dt) ≤ 0 →
      (asteroid_spawn dt rx ry ru s).asteroids.length = s.asteroids.length + 1
      ∧ (asteroid_spawn dt rx ry ru s).timer.elapsed = 0
      ∧ (asteroid_spawn dt rx ry ru s).timer.duration = s.timer.duration)
    ∧ (asteroid_spawn dt rx ry ru s).asteroids.length
        ≤ s.asteroids.length + 1 := by
  constructor
  · intro h
    have hle : s.timer.duration ≤ s.timer.elapsed + dt := by linarith
    have hfin : (s.timer.tick dt).finished = true := by
      simp [TimerM.tick, TimerM.finished, le_min_iff, hle]
    have key : asteroid_spawn dt rx ry ru s
        = { s with
            asteroids := s.asteroids ++
              [⟨random_position_in_corner rx ry, random_asteroid_speed ru⟩],
            timer := (s.timer.tick dt).reset } := by
      simp [asteroid_spawn, hfin]
    rw [key]
    simp [TimerM.reset, TimerM.tick]
  · by_cases hfin : ((s.timer.tick dt).finished : Bool) = true <;>
      simp [asteroid_spawn, hfin]

theorem C4_asteroid_spawn_once_witness :
    (asteroid_spawn 2 0 0 0
        ⟨AppState.InGame, none, 0, ⟨0, 1⟩, setupPlayer, [], []⟩).asteroids.length
      = 0 + 1
    ∧ (asteroid_spawn 2 0 0 0
        ⟨AppState.InGame, none, 0, ⟨0, 1⟩, setupPlayer, [], []⟩).timer.elapsed
      = 0 := by
  obtain ⟨h1, h2, -⟩ :=
    (C4_asteroid_spawn_once 2 0 0 0
      ⟨AppState.InGame, none, 0, ⟨0, 1⟩, setupPlayer, [], []⟩
      (by norm_num)).1 (by norm_num)
  exact ⟨by rw [h1]; rfl, h2⟩

/-- C8: the score never decreases across any frame (whatever its inputs,
elapsed time and random draws), and a single fire event with the cursor
available increases it by exactly the number of asteroids within the hazard
radius of the world cursor position. -/
theorem C8_score_monotone (atan2f : ℚ → ℚ → ℚ) (norms : Vec3 → ℚ)
    (dt rx ry ru : ℚ) (inp : Input) (s : GameState) :
    s.score ≤ (frame atan2f norms dt rx ry ru inp s).score
    ∧ (∀ p : Vec2, inp.fireJustPressed = true → inp.cursor = some p →
        (player_shooting inp s).score
          = s.score + (s.asteroids.filter
              (hitBy (p.x - WINDOW_WIDTH / 2)
                (WINDOW_HEIGHT / 2 - p.y))).length) := by
  refine ⟨frame_score_mono atan2f norms dt rx ry ru inp s, ?_⟩
  intro p hf hc
  simp [player_shooting, hf, hc]

theorem C8_score_monotone_witness :
    (⟨AppState.InGame, none, 5, ⟨0, 1⟩, setupPlayer,
        [⟨⟨0, 0, 0⟩, 60⟩, ⟨⟨100, 0, 0⟩, 60⟩], []⟩ : GameState).score
      ≤ (frame (fun _ _ => 0) (fun _ => 1) 0 0 0 0 ⟨some ⟨400, 300⟩, true⟩
        ⟨AppState.InGame, none, 5, ⟨0, 1⟩, setupPlayer,
          [⟨⟨0, 0, 0⟩, 60⟩, ⟨⟨100, 0, 0⟩, 60⟩], []⟩).score
    ∧ (player_shooting ⟨some ⟨400, 300⟩, true⟩
        ⟨AppState.InGame, none, 5, ⟨0, 1⟩, setupPlayer,
          [⟨⟨0, 0, 0⟩, 60⟩, ⟨⟨100, 0, 0⟩, 60⟩], []⟩).score = 5 + 1 := by
  obtain ⟨h1, h2⟩ :=
    C8_score_monotone (fun _ _ => 0) (fun _ => 1) 0 0 0 0
      ⟨some ⟨400, 300⟩, true⟩
      ⟨AppState.InGame, none, 5, ⟨0, 1⟩, setupPlayer,
        [⟨⟨0, 0, 0⟩, 60⟩, ⟨⟨100, 0, 0⟩, 60⟩], []⟩
  refine ⟨h1, ?_⟩
  rw [h2 ⟨400, 300⟩ rfl rfl]
  norm_num [List.filter, hitBy, WINDOW_WIDTH, WINDOW_HEIGHT, ASTEROID_RADIUS]

/-! ### Border sampling: helper lemmas -/

lemma corner_coord_mem (t dim : ℚ) (h0 : 0 ≤ t) (h1 : t < 1)
    (hdim : 2 * WINDOW_MARGIN ≤ dim) :
    (0 ≤ (if t < 1/2 then t * 2 * WINDOW_MARGIN
          else (t - 1/2) * 2 * WINDOW_MARGIN + dim - WINDOW_MARGIN)
      ∧ (if t < 1/2 then t * 2 * WINDOW_MARGIN
          else (t - 1/2) * 2 * WINDOW_MARGIN + dim - WINDOW_MARGIN)
        ≤ WINDOW_MARGIN)
    ∨ (dim - WINDOW_MARGIN
        ≤ (if t < 1/2 then t * 2 * WINDOW_MARGIN
            else (t - 1/2) * 2 * WINDOW_MARGIN + dim - WINDOW_MARGIN)
      ∧ (if t < 1/2 then t * 2 * WINDOW_MARGIN
          else (t - 1/2) * 2 * WINDOW_MARGIN + dim - WINDOW_MARGIN) ≤ dim) := by
  unfold WINDOW_MARGIN at *
  by_cases h : t < 1/2
  · left
    simp only [if_pos h]
    constructor <;> nlinarith
  · right
    simp only [if_neg h]
    push_neg at h
    constructor <;> nlinarith

lemma corner_abs_ge (t dim : ℚ) (h0 : 0 ≤ t) (h1 : t < 1)
    (hdim : 2 * WINDOW_MARGIN ≤ dim) :
    dim / 2 - WINDOW_MARGIN
      ≤ |(if t < 1/2 then t * 2 * WINDOW_MARGIN
          else (t - 1/2) * 2 * WINDOW_MARGIN + dim - WINDOW_MARGIN) - dim / 2| := by
  rcases corner_coord_mem t dim h0 h1 hdim with ⟨ha, hb⟩ | ⟨ha, hb⟩
  · exact le_abs.mpr (Or.inr (by linarith))
  · exact le_abs.mpr (Or.inl (by linarith))

/-- C6: each axis coordinate of a sampled spawn position, before centering,
lies in `[0, margin] ∪ [dimension − margin, dimension]`; hence after
centering the position is never inside the interior rectangle that excludes
the margin bands; and every sampled speed lies in `[min_speed, max_speed)`. -/
theorem C6_spawn_sampling_bounds (x y u : ℚ)
    (hx0 : 0 ≤ x) (hx1 : x < 1) (hy0 : 0 ≤ y) (hy1 : y < 1)
    (hu0 : 0 ≤ u) (hu1 : u < 1) :
    ((0 ≤ (random_position_in_corner x y).x + WINDOW_WIDTH / 2
        ∧ (random_position_in_corner x y).x + WINDOW_WIDTH / 2 ≤ WINDOW_MARGIN)
      ∨ (WINDOW_WIDTH - WINDOW_MARGIN
            ≤ (random_position_in_corner x y).x + WINDOW_WIDTH / 2
        ∧ (random_position_in_corner x y).x + WINDOW_WIDTH / 2 ≤ WINDOW_WIDTH))
    ∧ ((0 ≤ (random_position_in_corner x y).y + WINDOW_HEIGHT / 2
        ∧ (random_position_in_corner x y).y + WINDOW_HEIGHT / 2
            ≤ WINDOW_MARGIN)
      ∨ (WINDOW_HEIGHT - WINDOW_MARGIN
            ≤ (random_position_in_corner x y).y + WINDOW_HEIGHT / 2
        ∧ (random_position_in_corner x y).y + WINDOW_HEIGHT / 2
            ≤ WINDOW_HEIGHT))
    ∧ ¬(|(random_position_in_corner x y).x| < WINDOW_WIDTH / 2 - WINDOW_MARGIN
        ∧ |(random_position_in_corner x y).y|
            < WINDOW_HEIGHT / 2 - WINDOW_MARGIN)
    ∧ ASTEROID_MIN_SPEED ≤ random_asteroid_speed u
    ∧ random_asteroid_speed u < ASTEROID_MAX_SPEED := by
  have hex : (random_position_in_corner x y).x
      = (if x < 1/2 then x * 2 * WINDOW_MARGIN
          else (x - 1/2) * 2 * WINDOW_MARGIN + WINDOW_WIDTH - WINDOW_MARGIN)
        - WINDOW_WIDTH / 2 := by
    simp [random_position_in_corner]
  have hey : (random_position_in_corner x y).y
      = (if y < 1/2 then y * 2 * WINDOW_MARGIN
          else (y - 1/2) * 2 * WINDOW_MARGIN + WINDOW_HEIGHT - WINDOW_MARGIN)
        - WINDOW_HEIGHT / 2 := by
    simp [random_position_in_corner]
  have hbx := corner_coord_mem x WINDOW_WIDTH hx0 hx1
    (by norm_num [WINDOW_MARGIN, WINDOW_WIDTH])
  have hby := corner_coord_mem y WINDOW_HEIGHT hy0 hy1
    (by norm_num [WINDOW_MARGIN, WINDOW_HEIGHT])
  have hax := corner_abs_ge x WINDOW_WIDTH hx0 hx1
    (by norm_num [WINDOW_MARGIN, WINDOW_WIDTH])
  have hay := corner_abs_ge y WINDOW_HEIGHT hy0 hy1
    (by norm_num [WINDOW_MARGIN, WINDOW_HEIGHT])
  refine ⟨?_, ?_, ?_, ?_, ?_⟩
  · rw [hex]
    rcases hbx with ⟨ha, hb⟩ | ⟨ha, hb⟩
    · exact Or.inl ⟨by linarith, by linarith⟩
    · exact Or.inr ⟨by linarith, by linarith⟩
  · rw [hey]
    rcases hby with ⟨ha, hb⟩ | ⟨ha, hb⟩
    · exact Or.inl ⟨by linarith, by linarith⟩
    · exact Or.inr ⟨by linarith, by linarith⟩
  · rintro ⟨hltx, -⟩
    rw [hex] at hltx
    linarith
  · unfold random_asteroid_speed ASTEROID_MIN_SPEED ASTEROID_MAX_SPEED
    nlinarith
  · unfold random_asteroid_speed ASTEROID_MIN_SPEED ASTEROID_MAX_SPEED
    nlinarith

theorem C6_spawn_sampling_bounds_witness :
    ASTEROID_MIN_SPEED ≤ random_asteroid_speed 0
    ∧ random_asteroid_speed 0 < ASTEROID_MAX_SPEED
    ∧ ¬(|(random_position_in_corner 0 0).x| < WINDOW_WIDTH / 2 - WINDOW_MARGIN
        ∧ |(random_position_in_corner 0 0).y|
            < WINDOW_HEIGHT / 2 - WINDOW_MARGIN) := by
  obtain ⟨-, -, h3, h4, h5⟩ :=
    C6_spawn_sampling_bounds 0 0 0 (by norm_num) (by norm_num) (by norm_num)
      (by norm_num) (by norm_num) (by norm_num)
  exact ⟨h4, h5, h3⟩

/-- C10: a freshly sampled spawn position has `|x| ≥ width/2 − margin` and
`|y| ≥ height/2 − margin` after centering, so its squared distance to the
origin is at least `(width/2 − margin)²`, which strictly exceeds the hazard
radius squared; hence the loss test `belowHazard` is false for a
just-spawned asteroid, and its position is never the origin. -/
theorem C10_spawn_outside_hazard (x y u : ℚ)
    (hx0 : 0 ≤ x) (hx1 : x < 1) (hy0 : 0 ≤ y) (hy1 : y < 1) :
    WINDOW_WIDTH / 2 - WINDOW_MARGIN ≤ |(random_position_in_corner x y).x|
    ∧ WINDOW_HEIGHT / 2 - WINDOW_MARGIN ≤ |(random_position_in_corner x y).y|
    ∧ (WINDOW_WIDTH / 2 - WINDOW_MARGIN) * (WINDOW_WIDTH / 2 - WINDOW_MARGIN)
        ≤ (random_position_in_corner x y).x * (random_position_in_corner x y).x
          + (random_position_in_corner x y).y
              * (random_position_in_corner x y).y
    ∧ ASTEROID_RADIUS * ASTEROID_RADIUS
        < (WINDOW_WIDTH / 2 - WINDOW_MARGIN)
            * (WINDOW_WIDTH / 2 - WINDOW_MARGIN)
    ∧ belowHazard ⟨random_position_in_corner x y, random_asteroid_speed u⟩
        = false
    ∧ random_position_in_corner x y ≠ Vec3.zero := by
  have hex : (random_position_in_corner x y).x
      = (if x < 1/2 then x * 2 * WINDOW_MARGIN
          else (x - 1/2) * 2 * WINDOW_MARGIN + WINDOW_WIDTH - WINDOW_MARGIN)
        - WINDOW_WIDTH / 2 := by
    simp [random_position_in_corner]
  have hey : (random_position_in_corner x y).y
      = (if y < 1/2 then y * 2 * WINDOW_MARGIN
          else (y - 1/2) * 2 * WINDOW_MARGIN + WINDOW_HEIGHT - WINDOW_MARGIN)
        - WINDOW_HEIGHT / 2 := by
    simp [random_position_in_corner]
  have hax : WINDOW_WIDTH / 2 - WINDOW_MARGIN
      ≤ |(random_position_in_corner x y).x| := by
    rw [hex]
    exact corner_abs_ge x WINDOW_WIDTH hx0 hx1
      (by norm_num [WINDOW_MARGIN, WINDOW_WIDTH])
  have hay : WINDOW_HEIGHT / 2 - WINDOW_MARGIN
      ≤ |(random_position_in_corner x y).y| := by
    rw [hey]
    exact corner_abs_ge y WINDOW_HEIGHT hy0 hy1
      (by norm_num [WINDOW_MARGIN, WINDOW_HEIGHT])
  have haxq : (350 : ℚ) ≤ |(random_position_in_corner x y).x| := by
    rw [show (350 : ℚ) = WINDOW_WIDTH / 2 - WINDOW_MARGIN by
      norm_num [WINDOW_WIDTH, WINDOW_MARGIN]]
    exact hax
  have hsq : (WINDOW_WIDTH / 2 - WINDOW_MARGIN)
        * (WINDOW_WIDTH / 2 - WINDOW_MARGIN)
      ≤ (random_position_in_corner x y).x * (random_position_in_corner x y).x
        + (random_position_in_corner x y).y
            * (random_position_in_corner x y).y := by
    have h1 : (random_position_in_corner x y).x
          * (random_position_in_corner x y).x
        = |(random_position_in_corner x y).x|
            * |(random_position_in_corner x y).x| :=
      (abs_mul_abs_self _).symm
    have h2 : (0 : ℚ) ≤ (random_position_in_corner x y).y
        * (random_position_in_corner x y).y := mul_self_nonneg _
    have h3 : (0 : ℚ) ≤ WINDOW_WIDTH / 2 - WINDOW_MARGIN := by
      norm_num [WINDOW_WIDTH, WINDOW_MARGIN]
    nlinarith [abs_nonneg (random_position_in_corner x y).x]
  refine ⟨hax, hay, hsq, by norm_num [ASTEROID_RADIUS, WINDOW_WIDTH,
    WINDOW_MARGIN], ?_, ?_⟩
  · simp only [belowHazard, decide_eq_false_iff_not, not_lt]
    have : ASTEROID_RADIUS * ASTEROID_RADIUS
        ≤ (WINDOW_WIDTH / 2 - WINDOW_MARGIN)
            * (WINDOW_WIDTH / 2 - WINDOW_MARGIN) := by
      norm_num [ASTEROID_RADIUS, WINDOW_WIDTH, WINDOW_MARGIN]
    exact le_trans this hsq
  · intro h
    have hx0' : (random_position_in_corner x y).x = 0 := by rw [h]; rfl
    rw [hx0'] at haxq
    norm_num at haxq

theorem C10_spawn_outside_hazard_witness :
    belowHazard ⟨random_position_in_corner 0 0, random_asteroid_speed 0⟩
        = false
    ∧ random_position_in_corner 0 0 ≠ Vec3.zero := by
  obtain ⟨-, -, -, -, h5, h6⟩ :=
    C10_spawn_outside_hazard 0 0 0 (by norm_num) (by norm_num) (by norm_num)
      (by norm_num)
  exact ⟨h5, h6⟩

/-- C5: one integration step with positive elapsed time and positive speed,
for an asteroid away from the origin in the gameplay plane (`z = 0`),
strictly decreases its squared distance to the origin, provided the step
length `speed · dt` is smaller than the current distance.  `norms` supplies
the exact Euclidean norm of the position (skolemized square root, see the
module docstring); speed is unchanged and the asteroid stays in the plane. -/
theorem C5_movement_inward (norms : Vec3 → ℚ) (dt : ℚ) (a : AsteroidE)
    (hz : a.translation.z = 0) (hne : a.translation ≠ Vec3.zero)
    (hdt : 0 < dt) (hspeed : 0 < a.speed)
    (hn : 0 < norms a.translation)
    (hnsq : norms a.translation * norms a.translation = a.translation.normSq)
    (hstep : a.speed * dt < norms a.translation) :
    (moveAsteroid norms dt a).translation.x
        * (moveAsteroid norms dt a).translation.x
      + (moveAsteroid norms dt a).translation.y
          * (moveAsteroid norms dt a).translation.y
      < a.translation.x * a.translation.x
        + a.translation.y * a.translation.y
    ∧ (moveAsteroid norms dt a).translation.z = 0
    ∧ (moveAsteroid norms dt a).speed = a.speed := by
  have hx : (moveAsteroid norms dt a).translation.x
      = a.translation.x
        + a.translation.x * (1 / norms a.translation) * (-1) * a.speed * dt :=
    rfl
  have hy : (moveAsteroid norms dt a).translation.y
      = a.translation.y
        + a.translation.y * (1 / norms a.translation) * (-1) * a.speed * dt :=
    rfl
  have hzz : (moveAsteroid norms dt a).translation.z
      = a.translation.z
        + a.translation.z * (1 / norms a.translation) * (-1) * a.speed * dt :=
    rfl
  have hnz : norms a.translation ≠ 0 := ne_of_gt hn
  have hplane : norms a.translation * norms a.translation
      = a.translation.x * a.translation.x
        + a.translation.y * a.translation.y := by
    rw [hnsq]
    unfold Vec3.normSq
    rw [hz]
    ring
  refine ⟨?_, ?_, rfl⟩
  · rw [hx, hy]
    have hs : 0 < a.speed * dt := mul_pos hspeed hdt
    have h2n : 0 < 2 * norms a.translation - a.speed * dt := by linarith
    have hprod : 0 < (a.speed * dt)
        * (2 * norms a.translation - a.speed * dt) := mul_pos hs h2n
    field_simp
    rw [div_lt_iff (mul_pos hn hn)]
    nlinarith [hplane, hprod, mul_pos (mul_pos hn hn) hprod]
  · rw [hzz, hz]
    ring

theorem C5_movement_inward_witness :
    (moveAsteroid (fun _ => 5) 1 ⟨⟨3, 4, 0⟩, 1⟩).translation.x
        * (moveAsteroid (fun _ => 5) 1 ⟨⟨3, 4, 0⟩, 1⟩).translation.x
      + (moveAsteroid (fun _ => 5) 1 ⟨⟨3, 4, 0⟩, 1⟩).translation.y
          * (moveAsteroid (fun _ => 5) 1 ⟨⟨3, 4, 0⟩, 1⟩).translation.y
      < 3 * 3 + 4 * 4
    ∧ (moveAsteroid (fun _ => 5) 1 ⟨⟨3, 4, 0⟩, 1⟩).translation.z = 0
    ∧ (moveAsteroid (fun _ => 5) 1 ⟨⟨3, 4, 0⟩, 1⟩).speed = 1 :=
  C5_movement_inward (fun _ => 5) 1 ⟨⟨3, 4, 0⟩, 1⟩ rfl
    (by norm_num [Vec3.zero, Vec3.mk.injEq]) (by norm_num) (by norm_num)
    (by norm_num) (by norm_num [Vec3.normSq]) (by norm_num)

/-- C7 (amended): a tick with zero elapsed time is a no-op for the
time-driven systems: given the timer invariant `elapsed < duration`,
`asteroid_spawn` with `dt = 0` returns the state unchanged (no spawn) and
`asteroid_movement` with `dt = 0` returns the state unchanged, so positions,
score and phase are all untouched.  (With negative elapsed time the tick is
not a no-op — see the counterexample theorem for this claim.) -/
theorem C7_zero_dt_noop (norms : Vec3 → ℚ) (rx ry ru : ℚ) (s : GameState)
    (ht : s.timer.elapsed < s.timer.duration) :
    asteroid_spawn 0 rx ry ru s = s ∧ asteroid_movement norms 0 s = s := by
  have htick : s.timer.tick 0 = s.timer := by
    simp [TimerM.tick, min_eq_left ht.le]
  have hfin : (s.timer.tick 0).finished = false := by
    rw [htick]
    simp [TimerM.finished, not_le.mpr ht]
  constructor
  · have hfin2 : s.timer.finished = false := by
      simp [TimerM.finished, not_le.mpr ht]
    simp [asteroid_spawn, htick, hfin2]
  · have hmove : moveAsteroid norms 0 = id := by
      funext a
      simp [moveAsteroid, Vec3.normalizeWith, Vec3.smul, Vec3.add]
    simp [asteroid_movement, hmove]

theorem C7_zero_dt_noop_witness :
    asteroid_spawn 0 0 0 0
        ⟨AppState.InGame, none, 4, ⟨0, 1⟩, setupPlayer,
          [⟨⟨100, 200, 0⟩, 70⟩], []⟩
      = ⟨AppState.InGame, none, 4, ⟨0, 1⟩, setupPlayer,
          [⟨⟨100, 200, 0⟩, 70⟩], []⟩
    ∧ asteroid_movement (fun _ => 1) 0
        ⟨AppState.InGame, none, 4, ⟨0, 1⟩, setupPlayer,
          [⟨⟨100, 200, 0⟩, 70⟩], []⟩
      = ⟨AppState.InGame, none, 4, ⟨0, 1⟩, setupPlayer,
          [⟨⟨100, 200, 0⟩, 70⟩], []⟩ :=
  C7_zero_dt_noop (fun _ => 1) 0 0 0
    ⟨AppState.InGame, none, 4, ⟨0, 1⟩, setupPlayer,
      [⟨⟨100, 200, 0⟩, 70⟩], []⟩ (by norm_num)

/-- C7 counterexample: a tick with negative elapsed time is not a no-op —
under `dt = −1` an asteroid at (30, 40) with speed 50 (exact norm 50) moves
outward to (60, 80), so asteroid positions do change, contradicting the
claim that a zero-or-negative-elapsed tick leaves every asteroid position
unchanged. -/
theorem C7_negative_dt_not_noop :
    (asteroid_movement (fun _ => 50) (-1)
        ⟨AppState.InGame, none, 0, ⟨0, 1⟩, setupPlayer,
          [⟨⟨30, 40, 0⟩, 50⟩], []⟩).asteroids
      = [⟨⟨60, 80, 0⟩, 50⟩]
    ∧ [⟨⟨60, 80, 0⟩, 50⟩] ≠ ([⟨⟨30, 40, 0⟩, 50⟩] : List AsteroidE) := by
  constructor
  · norm_num [asteroid_movement, moveAsteroid, Vec3.normalizeWith, Vec3.smul,
      Vec3.add, Vec3.mk.injEq]
  · norm_num [AsteroidE.mk.injEq, Vec3.mk.injEq]

/-- C9: the player's translation is fixed at the arena center for the whole
session: `setup` places it at the origin, every frame preserves the
translation, the aim update only rewrites the rotation — to
`atan2(world_x, −world_y)`, kept abstract as `atan2f` — when the cursor is
available and does nothing otherwise, and no other gameplay system touches
the player at all (the player is a permanent field of the state — it is
never despawned). -/
theorem C9_player_fixed (atan2f : ℚ → ℚ → ℚ) (norms : Vec3 → ℚ)
    (dts rxs rys rus : ℕ → ℚ) (inps : ℕ → Input) (s : GameState) :
    setupPlayer.translation = Vec3.zero
    ∧ (∀ n : ℕ,
        (frames atan2f norms dts rxs rys rus inps s n).player.translation
          = s.player.translation)
    ∧ (∀ inp : Input, ∀ p : Vec2, inp.cursor = some p →
        player_rotation atan2f inp s
          = { s with player := { s.player with
              rotation := atan2f (p.x - WINDOW_WIDTH / 2)
                (-(WINDOW_HEIGHT / 2 - p.y)) } })
    ∧ (∀ inp : Input, inp.cursor = none → player_rotation atan2f inp s = s)
    ∧ (∀ dt rx ry ru : ℚ, (asteroid_spawn dt rx ry ru s).player = s.player)
    ∧ (∀ dt : ℚ, (asteroid_movement norms dt s).player = s.player)
    ∧ (∀ inp : Input, (player_shooting inp s).player = s.player)
    ∧ (player_collision s).player = s.player := by
  refine ⟨rfl, ?_, ?_, ?_, ?_, ?_, ?_, (player_collision_fields s).2.2.2.2⟩
  · intro n
    induction n with
    | zero => rfl
    | succ n ih =>
      simp only [frames]
      rw [frame_player_translation, ih]
  · intro inp p hc
    simp [player_rotation, hc]
  · intro inp hc
    simp [player_rotation, hc]
  · intro dt rx ry ru
    exact (asteroid_spawn_fields dt rx ry ru s).2.2.2.1
  · intro dt
    exact (asteroid_movement_fields norms dt s).2.2.2.1
  · intro inp
    exact (player_shooting_fields inp s).2.2.1

theorem C9_player_fixed_witness :
    (frames (fun a b => a + b) (fun _ => 1) (fun _ => 0) (fun _ => 0)
        (fun _ => 0) (fun _ => 0) (fun _ => ⟨none, false⟩)
        ⟨AppState.InGame, none, 0, ⟨0, 1⟩, setupPlayer, [], []⟩
        2).player.translation
      = Vec3.zero
    ∧ (player_rotation (fun a b => a + b) ⟨some ⟨500, 100⟩, false⟩
        ⟨AppState.InGame, none, 0, ⟨0, 1⟩, setupPlayer, [], []⟩).player.rotation
      = -100 := by
  obtain ⟨-, h2, h3, -, -, -, -, -⟩ :=
    C9_player_fixed (fun a b => a + b) (fun _ => 1) (fun _ => 0) (fun _ => 0)
      (fun _ => 0) (fun _ => 0) (fun _ => ⟨none, false⟩)
      ⟨AppState.InGame, none, 0, ⟨0, 1⟩, setupPlayer, [], []⟩
  constructor
  · exact h2 2
  · rw [h3 ⟨some ⟨500, 100⟩, false⟩ ⟨500, 100⟩ rfl]
    norm_num [WINDOW_WIDTH, WINDOW_HEIGHT]

/-- C1 (amended): on a frame where at least one live asteroid is below the
hazard radius, `player_collision` queues the `Playing → GameOver` transition
— the `NextState` resource ends up holding a single pending `GameOver` write
however many asteroids are below the threshold, and applying it performs
exactly one transition — while the score and the current phase are untouched;
but the final score is reported once per asteroid below the threshold, so k
simultaneous offenders produce k identical score reports rather than one. -/
theorem C1_collision_transition (s : GameState)
    (h : ∃ a ∈ s.asteroids, belowHazard a = true) :
    (player_collision s).nextState = some AppState.GameOver
    ∧ (player_collision s).reports
        = s.reports ++ (s.asteroids.filter belowHazard).map (fun _ => s.score)
    ∧ (player_collision s).score = s.score
    ∧ (player_collision s).phase = s.phase
    ∧ (applyNextState (player_collision s)).phase = AppState.GameOver
    ∧ (applyNextState (player_collision s)).nextState = none := by
  obtain ⟨a, ha, hb⟩ := h
  have hne : s.asteroids.filter belowHazard ≠ [] :=
    List.ne_nil_of_mem (List.mem_filter.mpr ⟨ha, hb⟩)
  have hempty : (s.asteroids.filter belowHazard).isEmpty = false := by
    cases hf : s.asteroids.filter belowHazard with
    | nil => exact absurd hf hne
    | cons b l => rfl
  have hns : (player_collision s).nextState = some AppState.GameOver := by
    unfold player_collision
    rw [collide_foldl_nextState, hempty]
    rfl
  refine ⟨hns, collide_foldl_reports s.asteroids s,
    (player_collision_fields s).1, (player_collision_fields s).2.1, ?_, ?_⟩
  · simp [applyNextState, hns]
  · simp [applyNextState, hns]

theorem C1_collision_transition_witness :
    (player_collision
        ⟨AppState.InGame, none, 3, ⟨0, 1⟩, setupPlayer,
          [⟨⟨0, 0, 0⟩, 60⟩], []⟩).nextState = some AppState.GameOver
    ∧ (player_collision
        ⟨AppState.InGame, none, 3, ⟨0, 1⟩, setupPlayer,
          [⟨⟨0, 0, 0⟩, 60⟩], []⟩).reports = [3]
    ∧ (applyNextState (player_collision
        ⟨AppState.InGame, none, 3, ⟨0, 1⟩, setupPlayer,
          [⟨⟨0, 0, 0⟩, 60⟩], []⟩)).phase = AppState.GameOver := by
  obtain ⟨h1, h2, -, -, h5, -⟩ :=
    C1_collision_transition
      ⟨AppState.InGame, none, 3, ⟨0, 1⟩, setupPlayer, [⟨⟨0, 0, 0⟩, 60⟩], []⟩
      ⟨⟨⟨0, 0, 0⟩, 60⟩, by simp,
        by norm_num [belowHazard, ASTEROID_RADIUS]⟩
  refine ⟨h1, ?_, h5⟩
  rw [h2]
  norm_num [List.filter, belowHazard, ASTEROID_RADIUS]

/-- C1 counterexample: with two asteroids below the hazard radius on the same
`Playing` frame, the frame emits the final score twice — one `println!` per
offending asteroid in the `player_collision` loop — so the score is not
reported exactly once as the claim states. -/
theorem C1_duplicate_reports :
    (frame (fun _ _ => 0) (fun _ => 1) 0 0 0 0 ⟨none, false⟩
        ⟨AppState.InGame, none, 7, ⟨0, 1⟩, setupPlayer,
          [⟨⟨10, 0, 0⟩, 60⟩, ⟨⟨0, 10, 0⟩, 60⟩], []⟩).reports = [7, 7]
    ∧ ([7, 7] : List ℕ).length ≠ 1 := by
  constructor
  · norm_num [frame, applyNextState, player_rotation, asteroid_spawn,
      TimerM.tick, TimerM.finished, asteroid_movement, moveAsteroid,
      Vec3.normalizeWith, Vec3.smul, Vec3.add, player_shooting,
      player_collision, collideF, belowHazard, ASTEROID_RADIUS,
      List.foldl]
  · norm_num
